import Mathlib

/-!
Shallow embedding of the image-gallery carousel of the
catsandkittenssitter-site repository, together with proofs of the spec's
claims about it.

Two implementations exist in the repository:
* `src/script.js` (`createImageGallery`, lines 351-434): the captioned
  variant, with a counter region and a caption region;
* `src/unnamed/part_000` (`createImageGallery`, lines 1-50): the
  caption-less variant.

Slides are modelled by their `hidden-img` class marker (`true` = the class
is present, i.e. the slide is hidden).  DOM text regions are modelled as
strings.  `showImage` dereferences `galleryIndexEl` without a null guard,
so it can throw a TypeError when the counter element is absent; we model
its outcome as `Except Gallery Gallery`, where `.error g` means the call
threw after leaving the DOM in state `g` (the class-list mutations at
lines 411-413 precede the throwing line 416).
-/

namespace CatsSitter

/-- The cat-name caption table, `catNames` in `src/script.js` lines 363-371. -/
def catNames : List String :=
  ["Oliver", "Zizi", "Nancy", "Sophia", "Mr Onions", "DaFu", "Bertie"]

/-- The DOM snapshot `createImageGallery` reads at construction time:
whether the container resolves, the `hidden-img` marker of each
`.gallery-img` slide in document order, whether the two arrow controls,
the `#gallery-index` counter and the `.gallery-caption` region resolve,
and the initial text of the latter two. -/
structure Markup where
  containerPresent : Bool
  slidesHidden : List Bool
  prevPresent : Bool
  nextPresent : Bool
  counterPresent : Bool
  counterText : String
  captionPresent : Bool
  captionText : String
  deriving Repr, DecidableEq

/-- The state closed over by the `src/script.js` gallery: the slides'
`hidden-img` markers, `currentIndex`, the optional counter and caption
elements with their text, and the caption table. -/
structure Gallery where
  hidden : List Bool
  currentIndex : Nat
  hasCounter : Bool
  counterText : String
  hasCaption : Bool
  captionText : String
  names : List String
  deriving Repr, DecidableEq

/-- JavaScript `Array.prototype.findIndex`: index of the first element
satisfying `p`, or `-1` when there is none. -/
def jsFindIndex (p : α → Bool) : List α → Int
  | [] => -1
  | a :: t =>
    if p a then 0
    else if jsFindIndex p t = -1 then -1 else jsFindIndex p t + 1

/-- `images.findIndex((img) => !img.classList.contains("hidden-img"))`:
the first slide whose `hidden-img` marker is absent, or `-1`. -/
def firstVisible (l : List Bool) : Int := jsFindIndex (fun h => !h) l

/-- The initialization loop of `src/script.js` lines 386-388:
`images.forEach((img, index) => img.classList.toggle("hidden-img", index !== currentIndex))`,
unrolled with `i` the index of the first remaining slide. -/
def markHidden (c : Nat) : Nat → List Bool → List Bool
  | _, [] => []
  | i, _ :: t => decide (i ≠ c) :: markHidden c (i + 1) t

/-- The initialization loop of `src/unnamed/part_000` lines 19-25:
`if (index === currentIndex) remove("hidden-img") else add("hidden-img")`. -/
def markHiddenB (c : Nat) : Nat → List Bool → List Bool
  | _, [] => []
  | i, _ :: t => (if i = c then false else true) :: markHiddenB c (i + 1) t

/-- `updateCaption` of `src/script.js` lines 394-398:
`if (galleryCaption) galleryCaption.textContent = ` ++ "`Meet $\x7bcatNames[index] ?? \"\"\x7d`" ++ `;`
(`catNames[index] ?? ""` degrades an out-of-range lookup to the empty string). -/
def updateCaption (g : Gallery) (index : Nat) : Gallery :=
  if g.hasCaption then { g with captionText := "Meet " ++ g.names.getD index "" } else g

/-- The counter text written at `src/script.js` line 416:
the JS template `$\x7bcurrentIndex + 1\x7d / $\x7bimages.length\x7d`. -/
def counterString (i n : Nat) : String := toString (i + 1) ++ " / " ++ toString n

/-- `showImage` of `src/script.js` lines 405-420.  Early-returns (no
mutation) when `newIndex` is out of range or equals `currentIndex`;
otherwise toggles the two class lists, sets `currentIndex`, writes the
counter (throwing a TypeError if `galleryIndexEl` is null — modelled as
`.error` carrying the already-mutated state) and re-renders the caption. -/
def showImage (g : Gallery) (newIndex : Int) : Except Gallery Gallery :=
  if newIndex < 0 ∨ (g.hidden.length : Int) ≤ newIndex ∨ newIndex = (g.currentIndex : Int) then
    .ok g
  else
    let n := newIndex.toNat
    let g1 : Gallery :=
      { g with hidden := (g.hidden.set g.currentIndex true).set n false, currentIndex := n }
    if g1.hasCounter then
      .ok (updateCaption { g1 with counterText := counterString n g.hidden.length } n)
    else
      .error g1

/-- `createImageGallery` of `src/script.js` lines 351-434: silent `none`
when the container, a control, or every slide is missing; otherwise the
initial cursor is `Math.max(images.findIndex(not hidden), 0)`, visibility
is normalized, and the caption (only) is rendered.  `none` means the
function returned before performing any DOM mutation and attached no
handlers. -/
def createImageGallery (m : Markup) : Option Gallery :=
  if !m.containerPresent then none
  else if m.slidesHidden.isEmpty || !m.prevPresent || !m.nextPresent then none
  else
    let c := (max (firstVisible m.slidesHidden) 0).toNat
    let g : Gallery :=
      { hidden := markHidden c 0 m.slidesHidden
        currentIndex := c
        hasCounter := m.counterPresent
        counterText := m.counterText
        hasCaption := m.captionPresent
        captionText := m.captionText
        names := catNames }
    some (updateCaption g c)

/-- The prev-arrow handler of `src/script.js` lines 426-429:
`() => currentIndex > 0 && showImage(currentIndex - 1)`. -/
def prevClick (g : Gallery) : Except Gallery Gallery :=
  if g.currentIndex > 0 then showImage g ((g.currentIndex : Int) - 1) else .ok g

/-- The next-arrow handler of `src/script.js` lines 430-433:
`() => currentIndex < images.length - 1 && showImage(currentIndex + 1)`. -/
def nextClick (g : Gallery) : Except Gallery Gallery :=
  if (g.currentIndex : Int) < (g.hidden.length : Int) - 1 then
    showImage g ((g.currentIndex : Int) + 1)
  else .ok g

/-- The DOM state after a call, whether it returned normally or threw. -/
def domAfter : Except Gallery Gallery → Gallery
  | .ok g => g
  | .error g => g

/-- Did the call throw? -/
def threw : Except Gallery Gallery → Bool
  | .ok _ => false
  | .error _ => true

/-- A discrete user activation of one of the two navigation controls. -/
inductive Click
  | prev
  | next
  deriving Repr, DecidableEq

/-- Run a sequence of activations against the `src/script.js` gallery,
keeping the DOM state across a throwing handler (an exception in a DOM
event handler does not undo earlier mutations). -/
def runClicks (g : Gallery) : List Click → Gallery
  | [] => g
  | c :: cs =>
    runClicks (domAfter (match c with | .prev => prevClick g | .next => nextClick g)) cs

/-- The state closed over by the `src/unnamed/part_000` gallery: no
caption element and no caption table. -/
structure GalleryB where
  hidden : List Bool
  currentIndex : Nat
  hasCounter : Bool
  counterText : String
  deriving Repr, DecidableEq

/-- `showImage` of `src/unnamed/part_000` lines 27-35: same guards (split
over two `if`s in the source), same mutations, no caption update. -/
def showImageB (g : GalleryB) (newIndex : Int) : Except GalleryB GalleryB :=
  if newIndex < 0 ∨ (g.hidden.length : Int) ≤ newIndex then .ok g
  else if newIndex = (g.currentIndex : Int) then .ok g
  else
    let n := newIndex.toNat
    let g1 : GalleryB :=
      { g with hidden := (g.hidden.set g.currentIndex true).set n false, currentIndex := n }
    if g1.hasCounter then
      .ok { g1 with counterText := counterString n g.hidden.length }
    else
      .error g1

/-- `createImageGallery` of `src/unnamed/part_000` lines 1-50: the
initial cursor uses an explicit `-1` check instead of `Math.max`. -/
def createImageGalleryB (m : Markup) : Option GalleryB :=
  if !m.containerPresent then none
  else if m.slidesHidden.isEmpty || !m.prevPresent || !m.nextPresent then none
  else
    let r := firstVisible m.slidesHidden
    let c := (if r = -1 then 0 else r).toNat
    some
      { hidden := markHiddenB c 0 m.slidesHidden
        currentIndex := c
        hasCounter := m.counterPresent
        counterText := m.counterText }

/-- The prev-arrow handler of `src/unnamed/part_000` lines 37-42. -/
def prevClickB (g : GalleryB) : Except GalleryB GalleryB :=
  if g.currentIndex > 0 then showImageB g ((g.currentIndex : Int) - 1) else .ok g

/-- The next-arrow handler of `src/unnamed/part_000` lines 44-49. -/
def nextClickB (g : GalleryB) : Except GalleryB GalleryB :=
  if (g.currentIndex : Int) < (g.hidden.length : Int) - 1 then
    showImageB g ((g.currentIndex : Int) + 1)
  else .ok g

/-- The DOM state after a call to the caption-less variant. -/
def domAfterB : Except GalleryB GalleryB → GalleryB
  | .ok g => g
  | .error g => g

/-- Run a sequence of activations against the `part_000` gallery. -/
def runClicksB (g : GalleryB) : List Click → GalleryB
  | [] => g
  | c :: cs =>
    runClicksB (domAfterB (match c with | .prev => prevClickB g | .next => nextClickB g)) cs

/-- The §3 data-model invariant: the cursor is in range and a slide
carries the `hidden-img` marker exactly when it is not at the cursor. -/
def invariantHolds (g : Gallery) : Prop :=
  g.currentIndex < g.hidden.length ∧
    ∀ i, i < g.hidden.length → g.hidden.getD i true = decide (i ≠ g.currentIndex)

instance (g : Gallery) : Decidable (invariantHolds g) := by
  unfold invariantHolds; infer_instance

/-! ### List helper lemmas -/

theorem getD_set_self {α} (l : List α) (i : Nat) (a d : α) (h : i < l.length) :
    (l.set i a).getD i d = a := by
  induction l generalizing i with
  | nil => simp at h
  | cons x t ih =>
    cases i with
    | zero => rfl
    | succ n => simpa using ih n (by simpa using h)

theorem getD_set_ne {α} (l : List α) (i j : Nat) (a d : α) (h : i ≠ j) :
    (l.set i a).getD j d = l.getD j d := by
  induction l generalizing i j with
  | nil => rfl
  | cons x t ih =>
    cases i with
    | zero =>
      cases j with
      | zero => exact absurd rfl h
      | succ m => rfl
    | succ n =>
      cases j with
      | zero => rfl
      | succ m => simpa using ih n m (by omega)

theorem getD_of_length_le {α} (l : List α) (i : Nat) (d : α) (h : l.length ≤ i) :
    l.getD i d = d := by
  induction l generalizing i with
  | nil => cases i <;> rfl
  | cons x t ih =>
    cases i with
    | zero => simp at h
    | succ n => simpa using ih n (by simpa using h)

/-! ### markHidden lemmas -/

theorem markHidden_length (c i : Nat) (l : List Bool) :
    (markHidden c i l).length = l.length := by
  induction l generalizing i with
  | nil => rfl
  | cons x t ih => simpa [markHidden] using ih (i + 1)

theorem markHidden_getD (c i j : Nat) (l : List Bool) (h : j < l.length) :
    (markHidden c i l).getD j true = decide (i + j ≠ c) := by
  induction l generalizing i j with
  | nil => simp at h
  | cons x t ih =>
    cases j with
    | zero => simp [markHidden]
    | succ n =>
      have := ih (i + 1) n (by simpa using h)
      simpa [markHidden, Nat.add_assoc, Nat.add_comm, Nat.add_left_comm] using this

theorem markHiddenB_eq_markHidden (c i : Nat) (l : List Bool) :
    markHiddenB c i l = markHidden c i l := by
  induction l generalizing i with
  | nil => rfl
  | cons x t ih =>
    simp only [markHidden, markHiddenB, ih (i + 1)]
    congr 1
    by_cases h : i = c <;> simp [h]

/-! ### firstVisible / jsFindIndex lemmas -/

theorem jsFindIndex_ge {α} (p : α → Bool) (l : List α) : -1 ≤ jsFindIndex p l := by
  induction l with
  | nil => simp [jsFindIndex]
  | cons a t ih =>
    rw [jsFindIndex]
    split
    · omega
    · split <;> omega

theorem jsFindIndex_lt_length {α} (p : α → Bool) (l : List α) :
    jsFindIndex p l < (l.length : Int) := by
  induction l with
  | nil => simp [jsFindIndex]
  | cons a t ih =>
    rw [jsFindIndex]
    simp only [List.length_cons]
    push_cast
    split
    · omega
    · split <;> omega

theorem firstVisible_of_all_hidden (l : List Bool)
    (h : ∀ i, i < l.length → l.getD i true = true) : firstVisible l = -1 := by
  induction l with
  | nil => rfl
  | cons a t ih =>
    have ha : a = true := by simpa using h 0 (by simp)
    have ht : firstVisible t = -1 := by
      refine ih (fun i hi => ?_)
      simpa using h (i + 1) (by simpa using hi)
    rw [firstVisible] at ht ⊢
    rw [jsFindIndex, ht]
    simp [ha]

theorem firstVisible_of_first (l : List Bool) (i : Nat) (hi : i < l.length)
    (hv : l.getD i true = false) (hb : ∀ j, j < i → l.getD j true = true) :
    firstVisible l = (i : Int) := by
  induction l generalizing i with
  | nil => simp at hi
  | cons a t ih =>
    cases i with
    | zero =>
      have ha : a = false := by simpa using hv
      rw [firstVisible, jsFindIndex]
      simp [ha]
    | succ n =>
      have ha : a = true := by simpa using hb 0 (Nat.succ_pos n)
      have ht : firstVisible t = (n : Int) :=
        ih n (by simpa using hi) (by simpa using hv)
          (fun j hj => by simpa using hb (j + 1) (by omega))
      rw [firstVisible] at ht ⊢
      rw [jsFindIndex, ht]
      have hne : ¬ ((n : Int) = -1) := by omega
      simp [ha, hne]

/-! ### updateCaption, showImage and createImageGallery characterization -/

theorem updateCaption_hidden (g : Gallery) (i : Nat) :
    (updateCaption g i).hidden = g.hidden := by
  unfold updateCaption; split <;> rfl

theorem updateCaption_currentIndex (g : Gallery) (i : Nat) :
    (updateCaption g i).currentIndex = g.currentIndex := by
  unfold updateCaption; split <;> rfl

theorem updateCaption_counterText (g : Gallery) (i : Nat) :
    (updateCaption g i).counterText = g.counterText := by
  unfold updateCaption; split <;> rfl

theorem updateCaption_hasCounter (g : Gallery) (i : Nat) :
    (updateCaption g i).hasCounter = g.hasCounter := by
  unfold updateCaption; split <;> rfl

theorem updateCaption_hasCaption (g : Gallery) (i : Nat) :
    (updateCaption g i).hasCaption = g.hasCaption := by
  unfold updateCaption; split <;> rfl

theorem updateCaption_names (g : Gallery) (i : Nat) :
    (updateCaption g i).names = g.names := by
  unfold updateCaption; split <;> rfl

/-- A valid, non-redundant `showImage` call: class-list mutations and the
cursor update always happen; the counter write succeeds only when the
counter element is present, and otherwise the call throws with the
mutations already applied. -/
theorem showImage_valid (g : Gallery) (t : Nat) (ht : t < g.hidden.length)
    (hne : t ≠ g.currentIndex) :
    showImage g (t : Int) =
      if g.hasCounter then
        .ok (updateCaption
          { g with
            hidden := (g.hidden.set g.currentIndex true).set t false
            currentIndex := t
            counterText := counterString t g.hidden.length } t)
      else
        .error
          { g with
            hidden := (g.hidden.set g.currentIndex true).set t false
            currentIndex := t } := by
  have hcond : ¬ ((t : Int) < 0 ∨ (g.hidden.length : Int) ≤ (t : Int) ∨
      (t : Int) = (g.currentIndex : Int)) := by
    omega
  rw [showImage, if_neg hcond]
  have htn : ((t : Int)).toNat = t := by omega
  simp only [htn]

/-- The DOM state after a valid `showImage` call, whether it returned or
threw: the old cursor's slide gains the `hidden-img` marker, the target
slide loses it, and the cursor moves to the target. -/
theorem showState_valid (g : Gallery) (t : Nat) (ht : t < g.hidden.length)
    (hne : t ≠ g.currentIndex) :
    (domAfter (showImage g (t : Int))).hidden =
      (g.hidden.set g.currentIndex true).set t false ∧
    (domAfter (showImage g (t : Int))).currentIndex = t := by
  rw [showImage_valid g t ht hne]
  split
  · exact ⟨by simp [domAfter, updateCaption_hidden],
      by simp [domAfter, updateCaption_currentIndex]⟩
  · exact ⟨rfl, rfl⟩

/-- Unfolding a successful construction: the resulting closure state in
terms of the markup. -/
theorem create_spec (m : Markup) (g : Gallery) (h : createImageGallery m = some g) :
    g.hidden =
      markHidden ((max (firstVisible m.slidesHidden) 0).toNat) 0 m.slidesHidden ∧
    g.currentIndex = (max (firstVisible m.slidesHidden) 0).toNat ∧
    g.hasCounter = m.counterPresent ∧
    g.counterText = m.counterText ∧
    g.hasCaption = m.captionPresent ∧
    g.names = catNames ∧
    m.slidesHidden ≠ [] := by
  rw [createImageGallery] at h
  split at h
  · exact absurd h (by simp)
  · split at h
    · exact absurd h (by simp)
    · rename_i hreq
      rw [Option.some.injEq] at h
      subst h
      refine ⟨by simp [updateCaption_hidden], by simp [updateCaption_currentIndex],
        by simp [updateCaption_hasCounter], by simp [updateCaption_counterText],
        by simp [updateCaption_hasCaption], by simp [updateCaption_names], ?_⟩
      intro hnil
      simp [hnil] at hreq

/-- The early-return guard of `showImage` (line 407): out-of-range or
redundant indices return without any mutation. -/
theorem showImage_noop (g : Gallery) (t : Int)
    (h : t < 0 ∨ (g.hidden.length : Int) ≤ t ∨ t = (g.currentIndex : Int)) :
    showImage g t = .ok g := by
  rw [showImage, if_pos h]

/-- Pointwise description of the `hidden-img` markers after a valid
`showImage` call from a state satisfying the invariant. -/
theorem getD_after_valid_show (g : Gallery) (t : Nat) (hinv : invariantHolds g)
    (ht : t < g.hidden.length) (hne : t ≠ g.currentIndex) (i : Nat)
    (hi : i < g.hidden.length) :
    ((g.hidden.set g.currentIndex true).set t false).getD i true = decide (i ≠ t) := by
  obtain ⟨hc, hvis⟩ := hinv
  by_cases hit : i = t
  · subst hit
    rw [getD_set_self]
    · simp
    · simpa using ht
  · rw [getD_set_ne _ t i _ _ (Ne.symm hit)]
    by_cases hic : i = g.currentIndex
    · subst hic
      rw [getD_set_self _ _ _ _ hc]
      simp [hit]
    · rw [getD_set_ne _ _ _ _ _ (Ne.symm hic)]
      rw [hvis i hi]
      simp [hit, hic]

/-- A `showImage` call at an in-range index preserves the §3 invariant,
whether it is a no-op, succeeds, or throws at the counter write. -/
theorem invariant_showState (g : Gallery) (t : Nat) (hinv : invariantHolds g)
    (ht : t < g.hidden.length) :
    invariantHolds (domAfter (showImage g (t : Int))) := by
  by_cases hne : t = g.currentIndex
  · have hstep : showImage g (t : Int) = .ok g :=
      showImage_noop g _ (Or.inr (Or.inr (by rw [hne])))
    rw [hstep]
    exact hinv
  · obtain ⟨hh, hcur⟩ := showState_valid g t ht hne
    have hlen : (domAfter (showImage g (t : Int))).hidden.length = g.hidden.length := by
      rw [hh]; simp
    constructor
    · rw [hcur, hlen]; exact ht
    · intro i hi
      rw [hlen] at hi
      rw [hh, hcur]
      exact getD_after_valid_show g t hinv ht hne i hi

/-- C1: from any carousel state satisfying the §3 visibility invariant,
calling `showImage` with an in-range `targetIndex` distinct from the
cursor leaves exactly one slide visible — the one at `targetIndex` — the
cursor at `targetIndex`, and the slide previously at the cursor hidden. -/
theorem showSlide_shows_exactly_target (g : Gallery) (t : Nat)
    (hinv : invariantHolds g) (ht : t < g.hidden.length) (hne : t ≠ g.currentIndex) :
    (domAfter (showImage g (t : Int))).currentIndex = t ∧
    (∀ i, i < (domAfter (showImage g (t : Int))).hidden.length →
        ((domAfter (showImage g (t : Int))).hidden.getD i true = false ↔ i = t)) ∧
    (domAfter (showImage g (t : Int))).hidden.getD g.currentIndex true = true := by
  obtain ⟨hh, hcur⟩ := showState_valid g t ht hne
  have hlen : (domAfter (showImage g (t : Int))).hidden.length = g.hidden.length := by
    rw [hh]; simp
  refine ⟨hcur, ?_, ?_⟩
  · intro i hi
    rw [hlen] at hi
    rw [hh, getD_after_valid_show g t hinv ht hne i hi]
    by_cases hit : i = t <;> simp [hit]
  · rw [hh, getD_after_valid_show g t hinv ht hne g.currentIndex hinv.1]
    have : g.currentIndex ≠ t := Ne.symm hne
    simp [this]

/-- Witness for C1 at a concrete two-slide carousel, moving from slide 0
to slide 1. -/
theorem showSlide_shows_exactly_target_witness :
    (domAfter (showImage ⟨[false, true], 0, true, "", false, "", []⟩ ((1 : Nat) : Int))).currentIndex = 1 ∧
    (∀ i, i < (domAfter (showImage ⟨[false, true], 0, true, "", false, "", []⟩ ((1 : Nat) : Int))).hidden.length →
        ((domAfter (showImage ⟨[false, true], 0, true, "", false, "", []⟩ ((1 : Nat) : Int))).hidden.getD i true = false ↔ i = 1)) ∧
    (domAfter (showImage ⟨[false, true], 0, true, "", false, "", []⟩ ((1 : Nat) : Int))).hidden.getD
      (Gallery.currentIndex ⟨[false, true], 0, true, "", false, "", []⟩) true = true :=
  showSlide_shows_exactly_target ⟨[false, true], 0, true, "", false, "", []⟩ 1
    (by decide) (by decide) (by decide)

/-- C2: the §3 invariant (cursor in range, exactly the cursor's slide
visible) holds after every successful construction and is preserved by
every activation of the previous or next control. -/
theorem carousel_invariant :
    (∀ (m : Markup) (g : Gallery), createImageGallery m = some g → invariantHolds g) ∧
    (∀ g : Gallery, invariantHolds g →
      invariantHolds (domAfter (prevClick g)) ∧ invariantHolds (domAfter (nextClick g))) := by
  constructor
  · intro m g h
    obtain ⟨hh, hcur, -, -, -, -, hnil⟩ := create_spec m g h
    have hfv := jsFindIndex_lt_length (fun h => !h) m.slidesHidden
    have hpos : 0 < m.slidesHidden.length := List.length_pos.mpr hnil
    have hcb : (max (firstVisible m.slidesHidden) 0).toNat < m.slidesHidden.length := by
      unfold firstVisible
      rcases max_choice (jsFindIndex (fun h => !h) m.slidesHidden) 0 with hm | hm <;>
        rw [hm] <;> omega
    constructor
    · rw [hcur, hh, markHidden_length]; exact hcb
    · intro i hi
      rw [hh] at hi ⊢
      rw [markHidden_length] at hi
      rw [markHidden_getD _ _ _ _ hi, hcur]
      simp
  · intro g hinv
    have hc1 := hinv.1
    constructor
    · rw [prevClick]
      split
      · rename_i hgt
        have harg : (g.currentIndex : Int) - 1 = ((g.currentIndex - 1 : Nat) : Int) := by
          omega
        rw [harg]
        exact invariant_showState g (g.currentIndex - 1) hinv (by omega)
      · exact hinv
    · rw [nextClick]
      split
      · rename_i hlt
        have harg : (g.currentIndex : Int) + 1 = ((g.currentIndex + 1 : Nat) : Int) := by
          push_cast; ring
        rw [harg]
        exact invariant_showState g (g.currentIndex + 1) hinv (by omega)
      · exact hinv

/-- Witness for C2: a concrete two-slide construction satisfies the
invariant, and both clicks preserve it at a concrete state. -/
theorem carousel_invariant_witness :
    invariantHolds ⟨[false, true], 0, true, "", false, "", catNames⟩ ∧
    (invariantHolds (domAfter (prevClick ⟨[false, true], 0, true, "", false, "", []⟩)) ∧
      invariantHolds (domAfter (nextClick ⟨[false, true], 0, true, "", false, "", []⟩))) :=
  ⟨carousel_invariant.1 ⟨true, [false, true], true, true, true, "", false, ""⟩
      ⟨[false, true], 0, true, "", false, "", catNames⟩ (by decide),
    carousel_invariant.2 ⟨[false, true], 0, true, "", false, "", []⟩ (by decide)⟩

/-- C3: `showImage` with a `targetIndex` that is negative, at least the
slide count, or equal to the cursor returns the state completely
unchanged — cursor, every hidden marker, counter text and caption text. -/
theorem showSlide_out_of_range_noop (g : Gallery) (t : Int)
    (h : t < 0 ∨ (g.hidden.length : Int) ≤ t ∨ t = (g.currentIndex : Int)) :
    showImage g t = .ok g :=
  showImage_noop g t h

/-- Witness for C3 at a concrete state and the out-of-range index 5. -/
theorem showSlide_out_of_range_noop_witness :
    showImage ⟨[false, true], 0, true, "c", true, "x", []⟩ 5 =
      .ok ⟨[false, true], 0, true, "c", true, "x", []⟩ :=
  showSlide_out_of_range_noop ⟨[false, true], 0, true, "c", true, "x", []⟩ 5 (by decide)

/-- C4 counterexample: for a 7-slide markup whose only visible slide is
index 2 and whose counter region initially holds the empty string,
construction leaves the counter empty — it does not write `"3 / 7"`
(the counter is only ever written inside `showImage`, line 416). -/
theorem counter_not_written_at_construction :
    (createImageGallery
        ⟨true, [true, true, false, true, true, true, true], true, true, true, "", true, ""⟩).map
      Gallery.counterText = some "" ∧
    (createImageGallery
        ⟨true, [true, true, false, true, true, true, true], true, true, true, "", true, ""⟩).map
      Gallery.counterText ≠ some "3 / 7" := by
  constructor
  · decide
  · decide

/-- C4 amended: immediately after construction the counter region's text
is whatever text the markup already contained — `createImageGallery`
never writes the counter; the `"3 / 7"` form appears only once a
transition runs. -/
theorem counter_unchanged_at_construction (m : Markup) (g : Gallery)
    (h : createImageGallery m = some g) : g.counterText = m.counterText :=
  (create_spec m g h).2.2.2.1

/-- Witness for the amended C4 at the 7-slide markup with counter text
`"orig"`. -/
theorem counter_unchanged_at_construction_witness :
    Gallery.counterText
        ⟨[true, true, false, true, true, true, true], 2, true, "orig", true, "Meet Nancy", catNames⟩ =
      Markup.counterText
        ⟨true, [true, true, false, true, true, true, true], true, true, true, "orig", true, "cap"⟩ :=
  counter_unchanged_at_construction
    ⟨true, [true, true, false, true, true, true, true], true, true, true, "orig", true, "cap"⟩
    ⟨[true, true, false, true, true, true, true], 2, true, "orig", true, "Meet Nancy", catNames⟩
    (by decide)

/-- C5 counterexample: a carousel constructed with slides and both
controls but no counter region throws a TypeError on its first next
activation (line 416 dereferences the null `galleryIndexEl`), rather
than skipping the counter update. -/
theorem transition_throws_without_counter :
    (createImageGallery ⟨true, [false, true], true, true, false, "", true, ""⟩).map
      (fun g => threw (nextClick g)) = some true := by
  decide

/-- C5 amended: a missing caption region is tolerated (a valid transition
completes normally and skips only the caption update), but a missing
counter region makes every valid transition throw a TypeError — after
the visibility and cursor updates have already been applied. -/
theorem showSlide_optional_elements (g : Gallery) (t : Nat)
    (ht : t < g.hidden.length) (hne : t ≠ g.currentIndex) :
    (g.hasCounter = true →
      ∃ g', showImage g (t : Int) = .ok g' ∧
        (g.hasCaption = false → g'.captionText = g.captionText)) ∧
    (g.hasCounter = false → threw (showImage g (t : Int)) = true) := by
  rw [showImage_valid g t ht hne]
  constructor
  · intro hcnt
    rw [if_pos hcnt]
    refine ⟨_, rfl, fun hcap => ?_⟩
    simp [updateCaption, hcap]
  · intro hcnt
    rw [if_neg (by simp [hcnt])]
    rfl

/-- Witness for the amended C5 at a concrete two-slide carousel with a
counter and no caption region. -/
theorem showSlide_optional_elements_witness :
    ((⟨[false, true], 0, true, "", false, "", []⟩ : Gallery).hasCounter = true →
      ∃ g', showImage ⟨[false, true], 0, true, "", false, "", []⟩ ((1 : Nat) : Int) = .ok g' ∧
        ((⟨[false, true], 0, true, "", false, "", []⟩ : Gallery).hasCaption = false →
          g'.captionText = (⟨[false, true], 0, true, "", false, "", []⟩ : Gallery).captionText)) ∧
    ((⟨[false, true], 0, true, "", false, "", []⟩ : Gallery).hasCounter = false →
      threw (showImage ⟨[false, true], 0, true, "", false, "", []⟩ ((1 : Nat) : Int)) = true) :=
  showSlide_optional_elements ⟨[false, true], 0, true, "", false, "", []⟩ 1
    (by decide) (by decide)

/-- C6: the cursor right after construction is the index of the first
slide in document order without the `hidden-img` marker, and 0 when
every slide carries the marker. -/
theorem initial_cursor_first_unhidden (m : Markup) (g : Gallery)
    (h : createImageGallery m = some g) :
    ((∀ i, i < m.slidesHidden.length → m.slidesHidden.getD i true = true) →
        g.currentIndex = 0) ∧
    (∀ i, i < m.slidesHidden.length → m.slidesHidden.getD i true = false →
        (∀ j, j < i → m.slidesHidden.getD j true = true) → g.currentIndex = i) := by
  have hcur := (create_spec m g h).2.1
  constructor
  · intro hall
    rw [hcur, firstVisible_of_all_hidden m.slidesHidden hall]
    decide
  · intro i hi hvis hb
    rw [hcur, firstVisible_of_first m.slidesHidden i hi hvis hb]
    rw [max_eq_left (Int.natCast_nonneg i)]
    omega

/-- Witness for C6: slides `[hidden, visible, hidden]` give initial
cursor 1. -/
theorem initial_cursor_first_unhidden_witness :
    ((∀ i, i < (Markup.slidesHidden ⟨true, [true, false, true], true, true, true, "ct", false, "cp"⟩).length →
        (Markup.slidesHidden ⟨true, [true, false, true], true, true, true, "ct", false, "cp"⟩).getD i true = true) →
      Gallery.currentIndex ⟨[true, false, true], 1, true, "ct", false, "cp", catNames⟩ = 0) ∧
    (∀ i, i < (Markup.slidesHidden ⟨true, [true, false, true], true, true, true, "ct", false, "cp"⟩).length →
        (Markup.slidesHidden ⟨true, [true, false, true], true, true, true, "ct", false, "cp"⟩).getD i true = false →
        (∀ j, j < i → (Markup.slidesHidden ⟨true, [true, false, true], true, true, true, "ct", false, "cp"⟩).getD j true = true) →
        Gallery.currentIndex ⟨[true, false, true], 1, true, "ct", false, "cp", catNames⟩ = i) :=
  initial_cursor_first_unhidden
    ⟨true, [true, false, true], true, true, true, "ct", false, "cp"⟩
    ⟨[true, false, true], 1, true, "ct", false, "cp", catNames⟩
    (by decide)

/-- C7: the previous control is inert at cursor 0 and the next control at
cursor N-1 (no wraparound, state returned unchanged); otherwise they
move the cursor down respectively up by one. -/
theorem nav_no_wraparound (g : Gallery) :
    (g.currentIndex = 0 → prevClick g = .ok g) ∧
    (g.currentIndex = g.hidden.length - 1 → nextClick g = .ok g) ∧
    (0 < g.currentIndex → g.currentIndex < g.hidden.length →
        (domAfter (prevClick g)).currentIndex = g.currentIndex - 1) ∧
    (g.currentIndex < g.hidden.length - 1 →
        (domAfter (nextClick g)).currentIndex = g.currentIndex + 1) := by
  refine ⟨?_, ?_, ?_, ?_⟩
  · intro h0
    rw [prevClick, if_neg (by omega)]
  · intro hl
    rw [nextClick, if_neg (by omega)]
  · intro h1 h2
    rw [prevClick, if_pos h1]
    have harg : (g.currentIndex : Int) - 1 = ((g.currentIndex - 1 : Nat) : Int) := by omega
    rw [harg]
    exact (showState_valid g (g.currentIndex - 1) (by omega) (by omega)).2
  · intro h
    rw [nextClick, if_pos (by omega)]
    have harg : (g.currentIndex : Int) + 1 = ((g.currentIndex + 1 : Nat) : Int) := by
      push_cast; ring
    rw [harg]
    exact (showState_valid g (g.currentIndex + 1) (by omega) (by omega)).2

/-- Witness for C7 on concrete two-slide carousels at both boundaries and
both interior moves. -/
theorem nav_no_wraparound_witness :
    prevClick ⟨[false, true], 0, true, "", false, "", []⟩ =
        .ok ⟨[false, true], 0, true, "", false, "", []⟩ ∧
    nextClick ⟨[true, false], 1, true, "", false, "", []⟩ =
        .ok ⟨[true, false], 1, true, "", false, "", []⟩ ∧
    (domAfter (prevClick ⟨[true, false], 1, true, "", false, "", []⟩)).currentIndex = 1 - 1 ∧
    (domAfter (nextClick ⟨[false, true], 0, true, "", false, "", []⟩)).currentIndex = 0 + 1 :=
  ⟨(nav_no_wraparound ⟨[false, true], 0, true, "", false, "", []⟩).1 (by decide),
   (nav_no_wraparound ⟨[true, false], 1, true, "", false, "", []⟩).2.1 (by decide),
   (nav_no_wraparound ⟨[true, false], 1, true, "", false, "", []⟩).2.2.1 (by decide) (by decide),
   (nav_no_wraparound ⟨[false, true], 0, true, "", false, "", []⟩).2.2.2 (by decide)⟩

/-- C8: with a caption table shorter than the slide list and caption and
counter regions present, a transition to an index at or beyond the
table's length completes normally and renders the caption `"Meet "`
(empty name), because `catNames[index] ?? ""` degrades to the empty
string. -/
theorem caption_empty_when_out_of_table (g : Gallery) (t : Nat)
    (hlen : g.names.length ≤ t) (ht : t < g.hidden.length)
    (hne : t ≠ g.currentIndex) (hcap : g.hasCaption = true)
    (hcnt : g.hasCounter = true) :
    ∃ g', showImage g (t : Int) = .ok g' ∧ g'.captionText = "Meet " := by
  rw [showImage_valid g t ht hne, if_pos hcnt]
  refine ⟨_, rfl, ?_⟩
  have hg : g.names[t]? = none := List.getElem?_eq_none hlen
  simp [updateCaption, hcap, hg]

/-- Witness for C8: eight slides over the seven-name table, transitioning
to index 7. -/
theorem caption_empty_when_out_of_table_witness :
    ∃ g', showImage
        ⟨[false, true, true, true, true, true, true, true], 0, true, "", true, "", catNames⟩
        ((7 : Nat) : Int) = .ok g' ∧
      g'.captionText = "Meet " :=
  caption_empty_when_out_of_table
    ⟨[false, true, true, true, true, true, true, true], 0, true, "", true, "", catNames⟩ 7
    (by decide) (by decide) (by decide) (by decide) (by decide)

/-- C9: construction against a container whose slide list is empty or
which lacks either navigation control returns `none`: the early return at
line 374 happens before any DOM mutation, counter/caption write, or
handler attachment. -/
theorem construction_inert_on_missing (m : Markup)
    (h : m.slidesHidden = [] ∨ m.prevPresent = false ∨ m.nextPresent = false) :
    createImageGallery m = none := by
  rw [createImageGallery]
  split
  · rfl
  · have hcond : (m.slidesHidden.isEmpty || !m.prevPresent || !m.nextPresent) = true := by
      rcases h with h | h | h <;> simp [h]
    rw [if_pos hcond]

/-- Witness for C9 at a markup with a missing previous control. -/
theorem construction_inert_on_missing_witness :
    createImageGallery ⟨true, [false, true], false, true, true, "", true, ""⟩ = none :=
  construction_inert_on_missing ⟨true, [false, true], false, true, true, "", true, ""⟩
    (by decide)

/-! ### Equivalence of the two carousel implementations (C10) -/

/-- A `showImage` call in the two variants produces the same hidden
markers and the same cursor, given equal hidden markers and cursors
before the call (the captioned variant additionally updates the caption,
which neither component mentions). -/
theorem showB_state_eq (g : Gallery) (gb : GalleryB)
    (hh : g.hidden = gb.hidden) (hc : g.currentIndex = gb.currentIndex) (t : Int) :
    (domAfter (showImage g t)).hidden = (domAfterB (showImageB gb t)).hidden ∧
    (domAfter (showImage g t)).currentIndex = (domAfterB (showImageB gb t)).currentIndex := by
  rw [showImage, showImageB, ← hh, ← hc]
  by_cases h1 : t < 0 ∨ (g.hidden.length : Int) ≤ t
  · rw [if_pos (by tauto), if_pos h1]
    exact ⟨hh, hc⟩
  · by_cases h2 : t = (g.currentIndex : Int)
    · rw [if_pos (by tauto), if_neg h1, if_pos h2]
      exact ⟨hh, hc⟩
    · rw [if_neg (by tauto), if_neg h1, if_neg h2]
      dsimp only
      constructor
      · by_cases hA : g.hasCounter = true <;> by_cases hB : gb.hasCounter = true <;>
          simp [hA, hB, domAfter, domAfterB, updateCaption_hidden]
      · by_cases hA : g.hasCounter = true <;> by_cases hB : gb.hasCounter = true <;>
          simp [hA, hB, domAfter, domAfterB, updateCaption_currentIndex]

/-- One activation of either control keeps the two variants' hidden
markers and cursors equal. -/
theorem clickB_state_eq (g : Gallery) (gb : GalleryB)
    (hh : g.hidden = gb.hidden) (hc : g.currentIndex = gb.currentIndex) (c : Click) :
    (domAfter (match c with | .prev => prevClick g | .next => nextClick g)).hidden =
      (domAfterB (match c with | .prev => prevClickB gb | .next => nextClickB gb)).hidden ∧
    (domAfter (match c with | .prev => prevClick g | .next => nextClick g)).currentIndex =
      (domAfterB (match c with | .prev => prevClickB gb | .next => nextClickB gb)).currentIndex := by
  cases c
  · rw [prevClick, prevClickB, ← hc]
    by_cases h : g.currentIndex > 0
    · rw [if_pos h, if_pos h]
      exact showB_state_eq g gb hh hc _
    · rw [if_neg h, if_neg h]
      exact ⟨hh, hc⟩
  · rw [nextClick, nextClickB, ← hh, ← hc]
    by_cases h : (g.currentIndex : Int) < (g.hidden.length : Int) - 1
    · rw [if_pos h, if_pos h]
      exact showB_state_eq g gb hh hc _
    · rw [if_neg h, if_neg h]
      exact ⟨hh, hc⟩

/-- Any sequence of activations keeps the two variants' hidden markers
and cursors equal. -/
theorem runB_state_eq (cs : List Click) : ∀ (g : Gallery) (gb : GalleryB),
    g.hidden = gb.hidden → g.currentIndex = gb.currentIndex →
    (runClicks g cs).hidden = (runClicksB gb cs).hidden ∧
    (runClicks g cs).currentIndex = (runClicksB gb cs).currentIndex := by
  induction cs with
  | nil => exact fun g gb hh hc => ⟨hh, hc⟩
  | cons c cs ih =>
    intro g gb hh hc
    obtain ⟨hh', hc'⟩ := clickB_state_eq g gb hh hc c
    exact ih _ _ hh' hc'

/-- The two constructions decline in exactly the same cases, and when
they activate they produce the same hidden markers and the same initial
cursor. -/
theorem createB_cases (m : Markup) :
    (createImageGallery m = none ∧ createImageGalleryB m = none) ∨
    (∃ (g : Gallery) (gb : GalleryB), createImageGallery m = some g ∧
      createImageGalleryB m = some gb ∧
      g.hidden = gb.hidden ∧ g.currentIndex = gb.currentIndex) := by
  rw [createImageGallery, createImageGalleryB]
  split
  · exact Or.inl ⟨rfl, rfl⟩
  · split
    · exact Or.inl ⟨rfl, rfl⟩
    · right
      have hge : -1 ≤ firstVisible m.slidesHidden := jsFindIndex_ge _ _
      have hcc : (max (firstVisible m.slidesHidden) 0).toNat =
          (if firstVisible m.slidesHidden = -1 then 0
           else firstVisible m.slidesHidden).toNat := by
        by_cases h : firstVisible m.slidesHidden = -1
        · rw [h]; decide
        · rw [if_neg h, max_eq_left (by omega)]
      refine ⟨_, _, rfl, rfl, ?_, ?_⟩
      · rw [updateCaption_hidden]
        dsimp only
        rw [markHiddenB_eq_markHidden, hcc]
      · rw [updateCaption_currentIndex]
        dsimp only
        rw [hcc]

/-- C10: the captioned (`src/script.js`) and caption-less
(`src/unnamed/part_000`) carousels are equivalent on cursor and
slide-visibility behavior: for the same markup and the same sequence of
previous/next activations, both decline in the same cases, compute the
same initial cursor, and afterwards agree on the cursor and on every
slide's hidden marker. -/
theorem variants_equivalent (m : Markup) (cs : List Click) :
    (createImageGallery m).map
        (fun g => ((runClicks g cs).currentIndex, (runClicks g cs).hidden)) =
      (createImageGalleryB m).map
        (fun g => ((runClicksB g cs).currentIndex, (runClicksB g cs).hidden)) := by
  rcases createB_cases m with ⟨h1, h2⟩ | ⟨g, gb, h1, h2, hh, hc⟩
  · rw [h1, h2]; rfl
  · rw [h1, h2]
    obtain ⟨hh', hc'⟩ := runB_state_eq cs g gb hh hc
    simp [hh', hc']

end CatsSitter
